import Mathlib

/-!
Shallow embedding of the procure-to-pay approval workflow core
(`p2p/models.py`, `p2p/services.py`, `p2p/serializers.py`).

Conventions of the embedding:
* Django model rows become Lean structures; the string-valued status/role/level
  fields of the source are kept as `String`, compared literally as the Python
  code does.
* Decimal amounts become `Rat` (exact fixed-point arithmetic).
* A service call wrapped in `transaction.atomic` becomes a pure function
  returning `Except ServiceError σ`: an `Except.error` result models a raised
  exception with the whole transaction rolled back (the caller's state is
  unchanged), an `Except.ok` result is the committed new state.
* Ambient effects (current time, current date string, the set of already
  persisted PO numbers, and whether `generate_po_document` succeeds) are
  passed explicitly in an `Env` record.
-/

namespace P2P

/-- A user; the custom user model stores the role as a string field
(`user.role`) which the workflow code compares literally against
"approver_level_1" / "approver_level_2". -/
structure User where
  role : String
  name : String
  deriving Repr, DecidableEq

/-- One approval ledger slot: a row of the `Approval` model for a fixed
purchase request (`level`, `status`, optional `approver`, `comments`,
optional `approved_at` timestamp). -/
structure Approval where
  level : String
  status : String
  approver : Option User
  comments : String
  approved_at : Option Nat
  deriving Repr, DecidableEq

/-- A `PurchaseOrder` model row. `document` is `none` when no document file is
attached; `total_amount` is copied from the request amount at finalization. -/
structure PurchaseOrder where
  po_number : String
  vendor_name : String
  vendor_address : String
  vendor_email : String
  vendor_phone : String
  total_amount : Rat
  status : String
  document : Option String
  created_by : Option User
  deriving Repr, DecidableEq

/-- The state of one purchase request together with its two approval ledger
slots (`unique_together ['purchase_request', 'level']` guarantees one row per
level) and its optional one-to-one `PurchaseOrder`. `extracted_data` is the
OCR vendor map (`JSONField`, nullable), modelled as an association list. -/
structure WorkflowState where
  status : String
  amount : Rat
  extracted_data : Option (List (String × String))
  slot1 : Approval
  slot2 : Approval
  po : Option PurchaseOrder
  deriving Repr, DecidableEq

/-- Errors raised by the service layer. `valueError` stands for the
`ValueError` of a failed `int(...)` parse inside `generate_po_number`;
`integrityError` for a database uniqueness violation (duplicate approval
chain row, duplicate one-to-one purchase order, or duplicate `po_number`
under its `unique=True` constraint). -/
inductive ServiceError where
  | notAuthorizedToApprove
  | notAuthorizedToReject
  | invalidApproverRole
  | integrityError
  | valueError
  deriving Repr, DecidableEq

/-- Ambient inputs of a service call: the current date formatted `YYYYMMDD`
(`datetime.now().strftime('%Y%m%d')`), the PO numbers already persisted in the
database, the current timestamp (`timezone.now()`), and the outcome of
`generate_po_document` (`some doc` if the renderer returns a file, `none` if
it raises). -/
structure Env where
  date_str : String
  existing_po_numbers : List String
  now : Nat
  doc_gen : Option String
  deriving Repr, DecidableEq

/-- `PurchaseRequest.can_approve` (models.py lines 41-47): the two-branch
`if`/`elif` over (status, role), literally transcribed. -/
def can_approve (status : String) (user : User) : Bool :=
  if status == "PENDING" && user.role == "approver_level_1" then true
  else if status == "APPROVED_LEVEL_1" && user.role == "approver_level_2" then true
  else false

/-- `PurchaseRequest.can_reject` (models.py lines 49-51):
`user.role in ['approver_level_1', 'approver_level_2'] and
 self.status not in ['APPROVED', 'REJECTED']`. -/
def can_reject (status : String) (user : User) : Bool :=
  (user.role == "approver_level_1" || user.role == "approver_level_2") &&
    !(status == "APPROVED" || status == "REJECTED")

/-- Python's `str.startswith`, used to model the Django queryset filter
`po_number__startswith`. -/
def charsStartWith : List Char → List Char → Bool
  | _, [] => true
  | [], _ :: _ => false
  | a :: as, b :: bs => a == b && charsStartWith as bs

/-- String wrapper for `charsStartWith`: does `s` start with `p`? -/
def strStartsWith (s p : String) : Bool :=
  charsStartWith s.toList p.toList

/-- Python's `str.split(sep)` for a one-character separator, accumulator
variant: `acc` holds the current field reversed. -/
def splitCharAux (sep : Char) : List Char → List Char → List (List Char)
  | [], acc => [acc.reverse]
  | c :: rest, acc =>
    if c == sep then acc.reverse :: splitCharAux sep rest []
    else splitCharAux sep rest (c :: acc)

/-- Python's `str.split(sep)` for a one-character separator; models
`po_number.split('-')`. -/
def splitChar (sep : Char) (s : String) : List String :=
  (splitCharAux sep s.toList []).map fun cs => String.mk cs

/-- Python's `int(s)` restricted to unsigned decimal digit strings; `none`
models the `ValueError` that `int` raises on anything else. -/
def parseNat? (s : String) : Option Nat :=
  if s.toList.isEmpty then none
  else s.toList.foldl
    (fun acc c =>
      match acc with
      | none => none
      | some n => if c.isDigit then some (n * 10 + (c.toNat - 48)) else none)
    (some 0)

/-- Code-point lexicographic strict order on character lists: the order the
database applies to `po_number` text under byte-wise collation, and Python's
own string `<`. -/
def charsLt : List Char → List Char → Bool
  | [], [] => false
  | [], _ :: _ => true
  | _ :: _, [] => false
  | a :: as, b :: bs =>
    if a < b then true else if b < a then false else charsLt as bs

/-- Strict lexicographic order on strings via `charsLt`. -/
def lexLt (s t : String) : Bool :=
  charsLt s.toList t.toList

/-- The lexicographically greatest element of a list of strings; models the
Django queryset `.order_by('-po_number').first()`. -/
def lexMax : List String → Option String
  | [] => none
  | s :: rest =>
    match lexMax rest with
    | none => some s
    | some t => if lexLt t s then some s else some t

/-- Python's `f'{n:04d}'`: decimal digits left-padded with zeros to width 4. -/
def pad4 (n : Nat) : String :=
  let s := toString n
  String.mk (List.replicate (4 - s.length) '0') ++ s

/-- `PurchaseOrder.generate_po_number` (models.py lines 126-137): filter the
persisted PO numbers by today's `PO-{YYYYMMDD}` date marker, take the
lexicographically greatest, parse its trailing `-`-separated field as an
integer and add one; if none exists start at 1. A failed `int(...)` parse
raises, modelled as `Except.error ServiceError.valueError`. -/
def generate_po_number (existing : List String) (date_str : String) :
    Except ServiceError String :=
  let dateMark := "PO-" ++ date_str
  match lexMax (existing.filter fun s => strStartsWith s dateMark) with
  | none => Except.ok (dateMark ++ "-" ++ pad4 1)
  | some last =>
    match parseNat? ((splitChar '-' last).getLastD "") with
    | none => Except.error ServiceError.valueError
    | some lastNum => Except.ok (dateMark ++ "-" ++ pad4 (lastNum + 1))

/-- The vendor fields `finalize_approval` copies out of `extracted_data`:
`extracted_data.get(key, '')` on the JSON map, absent keys giving `""`. -/
def jsonGet (m : List (String × String)) (k : String) : String :=
  (((m.find? fun p => p.1 == k).map Prod.snd)).getD ""

/-- `ApprovalWorkflowService.finalize_approval` (services.py lines 97-135):
set the request status to APPROVED, mint a PO number, copy vendor fields from
`extracted_data` when present (the model fields default to `""` otherwise),
create the `PurchaseOrder` row, then try to generate the document — a
document-generation failure is caught, logged and swallowed, leaving
`document = none`. The `PurchaseOrder.objects.create` insert raises
`IntegrityError` when either constraint is violated: the one-to-one link to
the request (a purchase order already exists) or `unique=True` on
`po_number` (models.py line 106, the minted number is already persisted —
e.g. after a day's 9999 to 10000 rollover makes the lexicographic max re-mint
an existing number). -/
def finalize_approval (env : Env) (st : WorkflowState) (user : User) :
    Except ServiceError WorkflowState :=
  let st1 : WorkflowState := { st with status := "APPROVED" }
  match generate_po_number env.existing_po_numbers env.date_str with
  | Except.error e => Except.error e
  | Except.ok po_number =>
    let vn := match st1.extracted_data with
      | none => ("", "", "", "")
      | some m =>
        (jsonGet m "vendor_name", jsonGet m "vendor_address",
         jsonGet m "vendor_email", jsonGet m "vendor_phone")
    if st1.po.isSome || env.existing_po_numbers.contains po_number then
      Except.error ServiceError.integrityError
    else
      let po0 : PurchaseOrder :=
        { po_number := po_number
          vendor_name := vn.1, vendor_address := vn.2.1
          vendor_email := vn.2.2.1, vendor_phone := vn.2.2.2
          total_amount := st1.amount, status := "GENERATED"
          document := none, created_by := some user }
      let po := match env.doc_gen with
        | some doc => { po0 with document := some doc }
        | none => po0
      Except.ok { st1 with po := some po }

/-- `ApprovalWorkflowService.approve_request` (services.py lines 29-63): guard
with `can_approve`, map the role to its level (`approver_level_1` → slot 1 and
new status APPROVED_LEVEL_1, `approver_level_2` → slot 2 and APPROVED_LEVEL_2,
anything else raises the invalid-role error), stamp the slot APPROVED with
approver/comments/timestamp, write the new request status, and — exactly when
the new status is APPROVED_LEVEL_2, i.e. in the level-2 branch — run
`finalize_approval` inside the same transaction before returning. -/
def approve_request (env : Env) (st : WorkflowState) (user : User)
    (comments : String) : Except ServiceError WorkflowState :=
  if !(can_approve st.status user) then
    Except.error ServiceError.notAuthorizedToApprove
  else if user.role == "approver_level_1" then
    let ap := { st.slot1 with
      status := "APPROVED", approver := some user
      comments := comments, approved_at := some env.now }
    Except.ok { st with slot1 := ap, status := "APPROVED_LEVEL_1" }
  else if user.role == "approver_level_2" then
    let ap := { st.slot2 with
      status := "APPROVED", approver := some user
      comments := comments, approved_at := some env.now }
    finalize_approval env { st with slot2 := ap, status := "APPROVED_LEVEL_2" } user
  else
    Except.error ServiceError.invalidApproverRole

/-- `ApprovalWorkflowService.reject_request` (services.py lines 67-95): guard
with `can_reject`, map the role to its level exactly as in approve, stamp that
slot REJECTED with approver/comments/timestamp, and set the request status to
REJECTED unconditionally. The other slot is not touched. -/
def reject_request (env : Env) (st : WorkflowState) (user : User)
    (comments : String) : Except ServiceError WorkflowState :=
  if !(can_reject st.status user) then
    Except.error ServiceError.notAuthorizedToReject
  else if user.role == "approver_level_1" then
    let ap := { st.slot1 with
      status := "REJECTED", approver := some user
      comments := comments, approved_at := some env.now }
    Except.ok { st with slot1 := ap, status := "REJECTED" }
  else if user.role == "approver_level_2" then
    let ap := { st.slot2 with
      status := "REJECTED", approver := some user
      comments := comments, approved_at := some env.now }
    Except.ok { st with slot2 := ap, status := "REJECTED" }
  else
    Except.error ServiceError.invalidApproverRole

/-- One row of the `Approval` table as seen by `create_approval_chain`: only
the level and status matter for chain creation (approver etc. start null). -/
structure ApprovalRow where
  level : String
  status : String
  deriving Repr, DecidableEq

/-- `Approval.objects.create(level=..., status='PENDING')` against the rows of
one purchase request: the `unique_together ['purchase_request', 'level']`
constraint (models.py lines 90-92) makes the insert raise `IntegrityError`
when a row of that level already exists. -/
def createApprovalRow (rows : List ApprovalRow) (level : String) :
    Except ServiceError (List ApprovalRow) :=
  if rows.any fun r => r.level == level then
    Except.error ServiceError.integrityError
  else
    Except.ok (rows ++ [{ level := level, status := "PENDING" }])

/-- `ApprovalWorkflowService.create_approval_chain` (services.py lines 12-25):
inside one `transaction.atomic`, insert the LEVEL_1 row then the LEVEL_2 row,
both PENDING. An `Except.error` result models the rolled-back transaction:
neither insert is persisted and the caller's rows are unchanged. -/
def create_approval_chain (rows : List ApprovalRow) :
    Except ServiceError (List ApprovalRow) :=
  match createApprovalRow rows "LEVEL_1" with
  | Except.error e => Except.error e
  | Except.ok r1 =>
    match createApprovalRow r1 "LEVEL_2" with
    | Except.error e => Except.error e
    | Except.ok r2 => Except.ok r2

/-- A `RequestItem` model row: quantity, unit price and the stored total. -/
structure RequestItem where
  item_name : String
  description : String
  quantity : Nat
  unit_price : Rat
  total_price : Rat
  deriving Repr, DecidableEq

/-- `RequestItem.save` (models.py lines 65-67): `self.total_price =
self.quantity * self.unit_price` runs on every write, before the row is
persisted, overwriting whatever `total_price` the caller supplied (the
serializer additionally marks `total_price` read-only). -/
def RequestItem.save (it : RequestItem) : RequestItem :=
  { it with total_price := (it.quantity : Rat) * it.unit_price }

end P2P

namespace P2P

/-- A concrete level-1 approver used for witnesses. -/
def userL1 : User := { role := "approver_level_1", name := "alice" }

/-- A concrete level-2 approver used for witnesses. -/
def userL2 : User := { role := "approver_level_2", name := "bob" }

/-- A concrete environment used for witnesses: date 2024-06-01, empty PO
table, timestamp 7, document generation succeeding. -/
def sampleEnv : Env :=
  { date_str := "20240601", existing_po_numbers := [], now := 7
    doc_gen := some "PO_doc.pdf" }

/-- A freshly created ledger slot of the given level. -/
def pendingSlot (lvl : String) : Approval :=
  { level := lvl, status := "PENDING", approver := none, comments := ""
    approved_at := none }

/-- The state of a newly created purchase request: status PENDING, both slots
PENDING, no purchase order, no extracted data. -/
def freshState (amount : Rat) : WorkflowState :=
  { status := "PENDING", amount := amount, extracted_data := none
    slot1 := pendingSlot "LEVEL_1", slot2 := pendingSlot "LEVEL_2"
    po := none }

/-- C1: `can_approve` is true exactly on the two sanctioned (status, role)
pairs, and consequently an approve by a level-2 approver while the request is
still PENDING always fails with the authorization error. -/
theorem canApprove_characterization :
    (∀ status u, can_approve status u = true ↔
      (status = "PENDING" ∧ u.role = "approver_level_1") ∨
      (status = "APPROVED_LEVEL_1" ∧ u.role = "approver_level_2")) ∧
    (∀ env st u c, st.status = "PENDING" → u.role = "approver_level_2" →
      approve_request env st u c = Except.error ServiceError.notAuthorizedToApprove) := by
  have hiff : ∀ status u, can_approve status u = true ↔
      (status = "PENDING" ∧ u.role = "approver_level_1") ∨
      (status = "APPROVED_LEVEL_1" ∧ u.role = "approver_level_2") := by
    intro status u
    by_cases h1 : status = "PENDING" <;>
      by_cases h2 : u.role = "approver_level_1" <;>
      by_cases h3 : status = "APPROVED_LEVEL_1" <;>
      by_cases h4 : u.role = "approver_level_2" <;>
      simp_all [can_approve]
  refine ⟨hiff, fun env st u c h1 h2 => ?_⟩
  have hfalse : can_approve st.status u = false := by
    rw [Bool.eq_false_iff]
    intro hc
    rcases (hiff st.status u).mp hc with ⟨_, hr⟩ | ⟨hs, _⟩
    · rw [h2] at hr; exact absurd hr (by decide)
    · rw [h1] at hs; exact absurd hs (by decide)
  unfold approve_request
  rw [hfalse]
  rfl

/-- Closed instance of C1: the level-2 approver is turned away from a fresh
PENDING request. -/
theorem canApprove_characterization_witness :
    approve_request sampleEnv (freshState 100) userL2 "" =
      Except.error ServiceError.notAuthorizedToApprove :=
  canApprove_characterization.2 sampleEnv (freshState 100) userL2 "" rfl rfl

end P2P

namespace P2P

/-- C5: `can_reject` is true exactly when the actor is one of the two approver
roles and the request is not terminal; in particular a level-2 approver may
reject while the status is still PENDING. -/
theorem canReject_characterization :
    (∀ status u, can_reject status u = true ↔
      ((u.role = "approver_level_1" ∨ u.role = "approver_level_2") ∧
        status ≠ "APPROVED" ∧ status ≠ "REJECTED")) ∧
    (∀ u, u.role = "approver_level_2" → can_reject "PENDING" u = true) := by
  have hiff : ∀ status u, can_reject status u = true ↔
      ((u.role = "approver_level_1" ∨ u.role = "approver_level_2") ∧
        status ≠ "APPROVED" ∧ status ≠ "REJECTED") := by
    intro status u
    by_cases h1 : u.role = "approver_level_1" <;>
      by_cases h2 : u.role = "approver_level_2" <;>
      by_cases h3 : status = "APPROVED" <;>
      by_cases h4 : status = "REJECTED" <;>
      simp_all [can_reject]
  exact ⟨hiff, fun u h => (hiff "PENDING" u).mpr ⟨Or.inr h, by decide, by decide⟩⟩

/-- Closed instance of C5: the concrete level-2 approver may reject a PENDING
request, and a requester-role user may not. -/
theorem canReject_characterization_witness :
    can_reject "PENDING" userL2 = true ∧
    ¬ ((({ role := "staff", name := "carol" } : User).role = "approver_level_1" ∨
        ({ role := "staff", name := "carol" } : User).role = "approver_level_2") ∧
       ("PENDING" : String) ≠ "APPROVED" ∧ ("PENDING" : String) ≠ "REJECTED") :=
  ⟨canReject_characterization.2 userL2 rfl,
   fun h => by
    rcases (canReject_characterization.1 "PENDING"
        { role := "staff", name := "carol" }).mpr h with hc
    exact absurd hc (by decide)⟩

/-- C7: `RequestItem.save` stores `quantity * unit_price` as the total,
whatever total the caller supplied; concretely, quantity 3 at unit price
1500.00 stores 4500.00 even when the caller passed total 1.00. -/
theorem total_price_recomputed :
    (∀ it : RequestItem,
      (RequestItem.save it).total_price = (it.quantity : Rat) * it.unit_price) ∧
    (∀ it : RequestItem, ∀ t : Rat,
      RequestItem.save { it with total_price := t } = RequestItem.save it) ∧
    (RequestItem.save
      { item_name := "laptop", description := "", quantity := 3
        unit_price := 1500, total_price := 1 }).total_price = 4500 := by
  refine ⟨fun it => rfl, fun it t => rfl, ?_⟩
  show ((3 : Nat) : Rat) * 1500 = 4500
  norm_num

end P2P

namespace P2P

/-- The only exception `generate_po_number` can raise is the `int(...)` parse
failure. -/
theorem generate_po_number_error (existing : List String) (date_str : String)
    (e : ServiceError) (h : generate_po_number existing date_str = Except.error e) :
    e = ServiceError.valueError := by
  simp only [generate_po_number] at h
  split at h
  · cases h
  · split at h
    · cases h; rfl
    · cases h

/-- `finalize_approval` never raises the invalid-role error: its failure modes
are the PO-number parse failure and the two uniqueness violations (one-to-one
link, duplicate `po_number`). -/
theorem finalize_approval_no_invalid_role (env : Env) (st : WorkflowState)
    (u : User) :
    finalize_approval env st u ≠ Except.error ServiceError.invalidApproverRole := by
  intro h
  unfold finalize_approval at h
  rcases hg : generate_po_number env.existing_po_numbers env.date_str with e | pn
  · rw [hg] at h
    cases h
    exact absurd (generate_po_number_error _ _ _ hg) (by decide)
  · rw [hg] at h
    by_cases hpo : st.po.isSome <;>
      by_cases hc : pn ∈ env.existing_po_numbers <;>
      simp [hpo, hc] at h

/-- C10: the `raise ValueError('Invalid approver role')` branches of
`approve_request` and `reject_request` are dead code — whenever the
eligibility guard passes, the role is one of the two approver roles, and
neither service function can ever return the invalid-role error. -/
theorem invalid_role_branch_unreachable :
    (∀ status u, can_approve status u = true →
      u.role = "approver_level_1" ∨ u.role = "approver_level_2") ∧
    (∀ status u, can_reject status u = true →
      u.role = "approver_level_1" ∨ u.role = "approver_level_2") ∧
    (∀ env st u c,
      approve_request env st u c ≠ Except.error ServiceError.invalidApproverRole) ∧
    (∀ env st u c,
      reject_request env st u c ≠ Except.error ServiceError.invalidApproverRole) := by
  have ha : ∀ status u, can_approve status u = true →
      u.role = "approver_level_1" ∨ u.role = "approver_level_2" := by
    intro status u h
    unfold can_approve at h
    by_cases h2 : u.role = "approver_level_1" <;>
      by_cases h4 : u.role = "approver_level_2" <;> simp_all
  have hr : ∀ status u, can_reject status u = true →
      u.role = "approver_level_1" ∨ u.role = "approver_level_2" := by
    intro status u h
    unfold can_reject at h
    by_cases h2 : u.role = "approver_level_1" <;>
      by_cases h4 : u.role = "approver_level_2" <;> simp_all
  refine ⟨ha, hr, fun env st u c h => ?_, fun env st u c h => ?_⟩
  · unfold approve_request at h
    by_cases hg : can_approve st.status u
    · rcases ha st.status u hg with hrole | hrole <;>
        simp_all [finalize_approval_no_invalid_role env
          { st with
            slot2 := { st.slot2 with
              status := "APPROVED", approver := some u
              comments := c, approved_at := some env.now }
            status := "APPROVED_LEVEL_2" } u]
    · simp_all
  · unfold reject_request at h
    by_cases hg : can_reject st.status u
    · rcases hr st.status u hg with hrole | hrole <;> simp_all
    · simp_all

/-- Closed instance of C10: the guard facts at the concrete approvers, and the
service calls at a concrete state never return the invalid-role error. -/
theorem invalid_role_branch_unreachable_witness :
    (userL1.role = "approver_level_1" ∨ userL1.role = "approver_level_2") ∧
    approve_request sampleEnv (freshState 100) userL1 "" ≠
      Except.error ServiceError.invalidApproverRole :=
  ⟨invalid_role_branch_unreachable.1 "PENDING" userL1 (by decide),
   invalid_role_branch_unreachable.2.2.1 sampleEnv (freshState 100) userL1 ""⟩

end P2P

namespace P2P

/-- Helper: characterization of `can_approve` as a standalone lemma. -/
theorem can_approve_iff (status : String) (u : User) :
    can_approve status u = true ↔
      (status = "PENDING" ∧ u.role = "approver_level_1") ∨
      (status = "APPROVED_LEVEL_1" ∧ u.role = "approver_level_2") := by
  by_cases h1 : status = "PENDING" <;>
    by_cases h2 : u.role = "approver_level_1" <;>
    by_cases h3 : status = "APPROVED_LEVEL_1" <;>
    by_cases h4 : u.role = "approver_level_2" <;>
    simp_all [can_approve]

/-- C6: a successful reject sets the request status to REJECTED whichever
level rejected, stamps the rejecting actor's own slot REJECTED with the actor
recorded as approver, and leaves the other level's slot completely
unchanged. -/
theorem reject_frame_effect :
    ∀ env st u c st2, reject_request env st u c = Except.ok st2 →
      st2.status = "REJECTED" ∧
      ((u.role = "approver_level_1" ∧ st2.slot1.status = "REJECTED" ∧
          st2.slot1.approver = some u ∧ st2.slot2 = st.slot2) ∨
       (u.role = "approver_level_2" ∧ st2.slot2.status = "REJECTED" ∧
          st2.slot2.approver = some u ∧ st2.slot1 = st.slot1)) := by
  intro env st u c st2 h
  simp only [reject_request] at h
  split_ifs at h with hg h1 h2
  all_goals injection h with h
  all_goals subst h
  · exact ⟨rfl, Or.inl ⟨eq_of_beq h1, rfl, rfl, rfl⟩⟩
  · exact ⟨rfl, Or.inr ⟨eq_of_beq h2, rfl, rfl, rfl⟩⟩

/-- The state produced by the concrete level-1 reject of a fresh request. -/
def rejectedAfterL1 : WorkflowState :=
  { status := "REJECTED", amount := 100, extracted_data := none
    slot1 := { level := "LEVEL_1", status := "REJECTED", approver := some userL1
               comments := "", approved_at := some 7 }
    slot2 := pendingSlot "LEVEL_2", po := none }

/-- Closed instance of C6: the concrete level-1 reject of a fresh request
ends REJECTED with slot 2 untouched. -/
theorem reject_frame_effect_witness :
    rejectedAfterL1.status = "REJECTED" ∧
    ((userL1.role = "approver_level_1" ∧
        rejectedAfterL1.slot1.status = "REJECTED" ∧
        rejectedAfterL1.slot1.approver = some userL1 ∧
        rejectedAfterL1.slot2 = (freshState 100).slot2) ∨
     (userL1.role = "approver_level_2" ∧
        rejectedAfterL1.slot2.status = "REJECTED" ∧
        rejectedAfterL1.slot2.approver = some userL1 ∧
        rejectedAfterL1.slot1 = (freshState 100).slot1)) :=
  reject_frame_effect sampleEnv (freshState 100) userL1 "" rejectedAfterL1 rfl

end P2P

namespace P2P

/-- The status/ledger consistency every state reachable through the workflow
satisfies: while the request is PENDING the level-1 slot is still undecided,
and while it is APPROVED_LEVEL_1 the level-2 slot is still undecided. -/
def StatusSlotsConsistent (st : WorkflowState) : Prop :=
  (st.status = "PENDING" → st.slot1.status = "PENDING") ∧
  (st.status = "APPROVED_LEVEL_1" → st.slot2.status = "PENDING")

/-- C2 (amended): on consistent states a second approve whose role maps to an
already-decided slot always fails — but with the authorization error from
`can_approve`, there being no slot-status check anywhere in the services —
while a reject by a level-1 approver whose own slot is already decided does
not fail at a non-terminal status: it succeeds and overwrites the decided
slot to REJECTED. -/
theorem decided_slot_second_decision :
    (∀ env st u c, StatusSlotsConsistent st →
      (u.role = "approver_level_1" → st.slot1.status ≠ "PENDING") →
      (u.role = "approver_level_2" → st.slot2.status ≠ "PENDING") →
      approve_request env st u c =
        Except.error ServiceError.notAuthorizedToApprove) ∧
    (∀ env st u c, u.role = "approver_level_1" →
      st.status = "APPROVED_LEVEL_1" → st.slot1.status = "APPROVED" →
      reject_request env st u c = Except.ok
        { st with
          status := "REJECTED",
          slot1 := { st.slot1 with
            status := "REJECTED", approver := some u,
            comments := c, approved_at := some env.now } }) := by
  constructor
  · intro env st u c hcons hd1 hd2
    have hfalse : can_approve st.status u = false := by
      rw [Bool.eq_false_iff]
      intro hc
      rcases (can_approve_iff st.status u).mp hc with ⟨hs, hr⟩ | ⟨hs, hr⟩
      · exact hd1 hr (hcons.1 hs)
      · exact hd2 hr (hcons.2 hs)
    unfold approve_request
    rw [hfalse]
    rfl
  · intro env st u c hrole hs _
    simp [reject_request, can_reject, hrole, hs]

/-- The state reached from a fresh request by the level-1 approve: slot 1 is
decided (APPROVED) and the request sits at APPROVED_LEVEL_1. -/
def exApprovedL1 : WorkflowState :=
  { status := "APPROVED_LEVEL_1", amount := 100, extracted_data := none
    slot1 := { level := "LEVEL_1", status := "APPROVED", approver := some userL1
               comments := "ok", approved_at := some 7 }
    slot2 := pendingSlot "LEVEL_2", po := none }

/-- Closed instance of the amended C2: at the concrete post-level-1 state,
the level-1 approver's second approve is refused, and the level-1 reject
overwrites the already-APPROVED slot. -/
theorem decided_slot_second_decision_witness :
    approve_request sampleEnv exApprovedL1 userL1 "" =
      Except.error ServiceError.notAuthorizedToApprove ∧
    reject_request sampleEnv exApprovedL1 userL1 "veto" =
      Except.ok
        { exApprovedL1 with
          status := "REJECTED",
          slot1 := { exApprovedL1.slot1 with
            status := "REJECTED", approver := some userL1,
            comments := "veto", approved_at := some sampleEnv.now } } :=
  ⟨decided_slot_second_decision.1 sampleEnv exApprovedL1 userL1 ""
      ⟨fun h => absurd h (by decide), fun _ => rfl⟩
      (fun _ h => absurd h (by decide))
      (fun h => absurd h (by decide)),
   decided_slot_second_decision.2 sampleEnv exApprovedL1 userL1 "veto" rfl rfl rfl⟩

/-- Counterexample to C2 as stated: a first call decides the LEVEL_1 slot
(APPROVED); the second call targeting that same decided slot — a reject by
the level-1 approver — returns success, not a StateError, and mutates the
slot from APPROVED to REJECTED. -/
theorem decided_slot_redecide_counterexample :
    approve_request sampleEnv (freshState 100) userL1 "ok" =
      Except.ok exApprovedL1 ∧
    exApprovedL1.slot1.status = "APPROVED" ∧
    reject_request sampleEnv exApprovedL1 userL1 "veto" =
      Except.ok
        { status := "REJECTED", amount := 100, extracted_data := none
          slot1 := { level := "LEVEL_1", status := "REJECTED"
                     approver := some userL1, comments := "veto", approved_at := some 7 }
          slot2 := pendingSlot "LEVEL_2", po := none } :=
  ⟨rfl, rfl, rfl⟩

end P2P

namespace P2P

/-- Helper: when the PO number parses, no purchase order exists yet for the
request, and the minted number is not already persisted (no `unique=True`
violation), `finalize_approval` succeeds, sets the request status to
APPROVED, and attaches a purchase order carrying the minted number, the
copied amount, status GENERATED, and no document when document generation
failed. -/
theorem finalize_approval_ok (env : Env) (st : WorkflowState) (u : User)
    (pn : String)
    (hg : generate_po_number env.existing_po_numbers env.date_str = Except.ok pn)
    (hpo : st.po = none)
    (hfresh : pn ∉ env.existing_po_numbers) :
    ∃ po, finalize_approval env st u =
        Except.ok { st with status := "APPROVED", po := some po } ∧
      po.po_number = pn ∧ po.total_amount = st.amount ∧
      po.status = "GENERATED" ∧ po.created_by = some u ∧
      (env.doc_gen = none → po.document = none) := by
  rcases hdg : env.doc_gen with _ | doc <;>
    rcases hx : st.extracted_data with _ | m
  · exact ⟨{ po_number := pn, vendor_name := "", vendor_address := ""
             vendor_email := "", vendor_phone := "", total_amount := st.amount
             status := "GENERATED", document := none, created_by := some u },
           by simp [finalize_approval, hg, hpo, hfresh, hdg, hx],
           rfl, rfl, rfl, rfl, fun _ => rfl⟩
  · exact ⟨{ po_number := pn, vendor_name := jsonGet m "vendor_name"
             vendor_address := jsonGet m "vendor_address"
             vendor_email := jsonGet m "vendor_email"
             vendor_phone := jsonGet m "vendor_phone", total_amount := st.amount
             status := "GENERATED", document := none, created_by := some u },
           by simp [finalize_approval, hg, hpo, hfresh, hdg, hx],
           rfl, rfl, rfl, rfl, fun _ => rfl⟩
  · exact ⟨{ po_number := pn, vendor_name := "", vendor_address := ""
             vendor_email := "", vendor_phone := "", total_amount := st.amount
             status := "GENERATED", document := some doc, created_by := some u },
           by simp [finalize_approval, hg, hpo, hfresh, hdg, hx],
           rfl, rfl, rfl, rfl, fun h => Option.noConfusion h⟩
  · exact ⟨{ po_number := pn, vendor_name := jsonGet m "vendor_name"
             vendor_address := jsonGet m "vendor_address"
             vendor_email := jsonGet m "vendor_email"
             vendor_phone := jsonGet m "vendor_phone", total_amount := st.amount
             status := "GENERATED", document := some doc, created_by := some u },
           by simp [finalize_approval, hg, hpo, hfresh, hdg, hx],
           rfl, rfl, rfl, rfl, fun h => Option.noConfusion h⟩

end P2P

namespace P2P

/-- C3: on a newly created request (status PENDING, both slots PENDING, no
purchase order), when the minted PO number parses and is not already
persisted (so neither uniqueness constraint fires), approve by a level-1
approver and then by a level-2 approver drives the status PENDING to
APPROVED_LEVEL_1 to APPROVED — the second call runs finalization
synchronously, so the caller sees terminal APPROVED, never APPROVED_LEVEL_2
— and attaches exactly one purchase order carrying the minted number. -/
theorem two_level_approval_reaches_approved :
    ∀ env st u1 u2 c1 c2 pn,
      st.status = "PENDING" → st.slot1.status = "PENDING" →
      st.slot2.status = "PENDING" → st.po = none →
      u1.role = "approver_level_1" → u2.role = "approver_level_2" →
      generate_po_number env.existing_po_numbers env.date_str = Except.ok pn →
      pn ∉ env.existing_po_numbers →
      ∃ st1 st2 po,
        approve_request env st u1 c1 = Except.ok st1 ∧
        st1.status = "APPROVED_LEVEL_1" ∧ st1.po = none ∧
        approve_request env st1 u2 c2 = Except.ok st2 ∧
        st2.status = "APPROVED" ∧ st2.status ≠ "APPROVED_LEVEL_2" ∧
        st2.po = some po ∧ po.po_number = pn := by
  intro env st u1 u2 c1 c2 pn hs h1p h2p hpo hr1 hr2 hg hfresh
  obtain ⟨po, hfin, hpn, -, -, -, -⟩ :=
    finalize_approval_ok env
      { st with
        slot1 := { st.slot1 with
          status := "APPROVED", approver := some u1,
          comments := c1, approved_at := some env.now },
        slot2 := { st.slot2 with
          status := "APPROVED", approver := some u2,
          comments := c2, approved_at := some env.now },
        status := "APPROVED_LEVEL_2" } u2 pn hg hpo hfresh
  have hca1 : can_approve st.status u1 = true :=
    (can_approve_iff st.status u1).mpr (Or.inl ⟨hs, hr1⟩)
  have hca2 : can_approve "APPROVED_LEVEL_1" u2 = true :=
    (can_approve_iff "APPROVED_LEVEL_1" u2).mpr (Or.inr ⟨rfl, hr2⟩)
  refine ⟨{ st with
      slot1 := { st.slot1 with
        status := "APPROVED", approver := some u1,
        comments := c1, approved_at := some env.now },
      status := "APPROVED_LEVEL_1" },
    { st with
      slot1 := { st.slot1 with
        status := "APPROVED", approver := some u1,
        comments := c1, approved_at := some env.now },
      slot2 := { st.slot2 with
        status := "APPROVED", approver := some u2,
        comments := c2, approved_at := some env.now },
      status := "APPROVED", po := some po }, po, ?_, rfl, hpo, ?_, rfl,
    fun h => by simp at h, rfl, hpn⟩
  · simp [approve_request, hca1, hr1]
  · simp [approve_request, hca2, hr2, hfin]

end P2P

namespace P2P

/-- Closed instance of C3: on the concrete fresh request, the two approvals
land on APPROVED with purchase order PO-20240601-0001 attached. -/
theorem two_level_approval_reaches_approved_witness :
    ∃ st1 st2 po,
      approve_request sampleEnv (freshState 100) userL1 "" = Except.ok st1 ∧
      st1.status = "APPROVED_LEVEL_1" ∧ st1.po = none ∧
      approve_request sampleEnv st1 userL2 "" = Except.ok st2 ∧
      st2.status = "APPROVED" ∧ st2.status ≠ "APPROVED_LEVEL_2" ∧
      st2.po = some po ∧ po.po_number = "PO-20240601-0001" :=
  two_level_approval_reaches_approved sampleEnv (freshState 100) userL1 userL2
    "" "" "PO-20240601-0001" rfl rfl rfl rfl rfl rfl rfl (by decide)

/-- The witness environment where `generate_po_document` raises. -/
def sampleEnvNoDoc : Env :=
  { date_str := "20240601", existing_po_numbers := [], now := 7
    doc_gen := none }

/-- C8: a document-generation failure during finalization is swallowed: when
the minted number parses and is not already persisted, finalization still
commits, the request ends at APPROVED, and the purchase order exists and is
retrievable — just with no document attached. -/
theorem doc_gen_failure_swallowed :
    ∀ env st u pn, env.doc_gen = none → st.po = none →
      generate_po_number env.existing_po_numbers env.date_str = Except.ok pn →
      pn ∉ env.existing_po_numbers →
      ∃ st2 po, finalize_approval env st u = Except.ok st2 ∧
        st2.po = some po ∧ po.document = none ∧ st2.status = "APPROVED" ∧
        po.po_number = pn := by
  intro env st u pn hdg hpo hg hfresh
  obtain ⟨po, hfin, hpn, -, -, -, hdoc⟩ :=
    finalize_approval_ok env st u pn hg hpo hfresh
  exact ⟨_, po, hfin, rfl, hdoc hdg, rfl, hpn⟩

/-- Closed instance of C8: with the renderer failing, finalizing the concrete
fresh request still yields an APPROVED request and a document-less PO. -/
theorem doc_gen_failure_swallowed_witness :
    ∃ st2 po,
      finalize_approval sampleEnvNoDoc (freshState 100) userL2 = Except.ok st2 ∧
      st2.po = some po ∧ po.document = none ∧ st2.status = "APPROVED" ∧
      po.po_number = "PO-20240601-0001" :=
  doc_gen_failure_swallowed sampleEnvNoDoc (freshState 100) userL2
    "PO-20240601-0001" rfl rfl rfl (by decide)

end P2P

namespace P2P

/-- C9: chain creation on a request with no approval rows yields exactly the
two PENDING rows, levels LEVEL_1 and LEVEL_2; whenever it succeeds it appends
exactly those two rows both-or-neither; and a second creation attempt on the
resulting rows fails with the uniqueness-violation error instead of
duplicating slots. -/
theorem approval_chain_creation :
    (create_approval_chain [] = Except.ok
      [{ level := "LEVEL_1", status := "PENDING" },
       { level := "LEVEL_2", status := "PENDING" }]) ∧
    (∀ rows out, create_approval_chain rows = Except.ok out →
      out = rows ++
        [{ level := "LEVEL_1", status := "PENDING" },
         { level := "LEVEL_2", status := "PENDING" }]) ∧
    (∀ rows out, create_approval_chain rows = Except.ok out →
      create_approval_chain out = Except.error ServiceError.integrityError) := by
  have hstep : ∀ rows out, create_approval_chain rows = Except.ok out →
      out = rows ++
        [{ level := "LEVEL_1", status := "PENDING" },
         { level := "LEVEL_2", status := "PENDING" }] := by
    intro rows out h
    by_cases h1 : rows.any fun r => r.level == "LEVEL_1"
    · simp [create_approval_chain, createApprovalRow, h1] at h
    · by_cases h2 : (rows ++
          [({ level := "LEVEL_1", status := "PENDING" } : ApprovalRow)]).any
            fun r => r.level == "LEVEL_2"
      · simp [create_approval_chain, createApprovalRow, h1, h2] at h
      · simp [create_approval_chain, createApprovalRow, h1, h2] at h
        simp [← h]
  refine ⟨rfl, hstep, fun rows out h => ?_⟩
  have hout := hstep rows out h
  subst hout
  have hany : ((rows ++
      [({ level := "LEVEL_1", status := "PENDING" } : ApprovalRow),
       { level := "LEVEL_2", status := "PENDING" }]).any
        fun r => r.level == "LEVEL_1") = true := by
    simp
  simp [create_approval_chain, createApprovalRow, hany]

/-- Closed instance of C9: rerunning chain creation on the freshly created
two-row chain is refused with the uniqueness error. -/
theorem approval_chain_creation_witness :
    create_approval_chain
        [({ level := "LEVEL_1", status := "PENDING" } : ApprovalRow),
         { level := "LEVEL_2", status := "PENDING" }] =
      Except.error ServiceError.integrityError :=
  approval_chain_creation.2.2 []
    [{ level := "LEVEL_1", status := "PENDING" },
     { level := "LEVEL_2", status := "PENDING" }] rfl

end P2P

namespace P2P

/-- Helper: `charsLt` is irreflexive. -/
theorem charsLt_irrefl : ∀ l, charsLt l l = false := by
  intro l
  induction l with
  | nil => rfl
  | cons a as ih => simp [charsLt, lt_irrefl, ih]

/-- Helper: `charsLt` is transitive. -/
theorem charsLt_trans : ∀ a b c, charsLt a b = true → charsLt b c = true →
    charsLt a c = true := by
  intro a
  induction a with
  | nil =>
    intro b c hab hbc
    cases b with
    | nil => exact Bool.noConfusion hab
    | cons x xs =>
      cases c with
      | nil => exact Bool.noConfusion hbc
      | cons y ys => rfl
  | cons a as ih =>
    intro b c hab hbc
    cases b with
    | nil => exact Bool.noConfusion hab
    | cons x xs =>
      cases c with
      | nil => exact Bool.noConfusion hbc
      | cons y ys =>
        simp only [charsLt] at hab hbc ⊢
        by_cases h1 : a < x
        · by_cases h2 : x < y
          · rw [if_pos (lt_trans h1 h2)]
          · rw [if_neg h2] at hbc
            by_cases h3 : y < x
            · rw [if_pos h3] at hbc; exact Bool.noConfusion hbc
            · have hxy : x = y := le_antisymm (not_lt.mp h3) (not_lt.mp h2)
              rw [if_pos (hxy ▸ h1)]
        · rw [if_neg h1] at hab
          by_cases h4 : x < a
          · rw [if_pos h4] at hab; exact Bool.noConfusion hab
          · rw [if_neg h4] at hab
            have hax : a = x := le_antisymm (not_lt.mp h4) (not_lt.mp h1)
            subst hax
            by_cases h2 : a < y
            · rw [if_pos h2]
            · rw [if_neg h2] at hbc ⊢
              by_cases h3 : y < a
              · rw [if_pos h3] at hbc; exact Bool.noConfusion hbc
              · rw [if_neg h3] at hbc ⊢
                exact ih _ _ hab hbc

/-- Helper: `charsLt` is total up to equality: two lists neither of which is
strictly below the other are equal. -/
theorem charsLt_total_eq : ∀ a b, charsLt a b = false → charsLt b a = false →
    a = b := by
  intro a
  induction a with
  | nil =>
    intro b h1 _
    cases b with
    | nil => rfl
    | cons x xs => exact Bool.noConfusion h1
  | cons a as ih =>
    intro b h1 h2
    cases b with
    | nil => exact Bool.noConfusion h2
    | cons x xs =>
      simp only [charsLt] at h1 h2
      by_cases hax : a < x
      · rw [if_pos hax] at h1; exact Bool.noConfusion h1
      · rw [if_neg hax] at h1
        by_cases hxa : x < a
        · rw [if_pos hxa] at h2; exact Bool.noConfusion h2
        · rw [if_neg hxa] at h1
          rw [if_neg hxa, if_neg hax] at h2
          have : a = x := le_antisymm (not_lt.mp hxa) (not_lt.mp hax)
          rw [this, ih xs h1 h2]

/-- Helper: a nonempty list has a lexicographic maximum. -/
theorem lexMax_eq_nil (l : List String) (h : lexMax l = none) : l = [] := by
  cases l with
  | nil => rfl
  | cons a rest =>
    exfalso
    simp only [lexMax] at h
    split at h
    · exact Option.noConfusion h
    · split at h <;> exact Option.noConfusion h

/-- Helper: the lexicographic maximum is a member of the list. -/
theorem lexMax_mem : ∀ (l : List String) (s : String), lexMax l = some s →
    s ∈ l := by
  intro l
  induction l with
  | nil => intro s h; exact Option.noConfusion h
  | cons a rest ih =>
    intro s h
    simp only [lexMax] at h
    split at h
    · cases h; exact List.mem_cons_self _ _
    · rename_i t ht
      split at h
      · cases h; exact List.mem_cons_self _ _
      · cases h; exact List.mem_cons_of_mem _ (ih _ ht)

/-- Helper: no list member is strictly above the lexicographic maximum. -/
theorem lexMax_ub : ∀ (l : List String) (s : String), lexMax l = some s →
    ∀ t ∈ l, lexLt s t = false := by
  intro l
  induction l with
  | nil => intro s h; exact Option.noConfusion h
  | cons a rest ih =>
    intro s h t htl
    simp only [lexMax] at h
    split at h
    · rename_i hnone
      cases h
      rw [lexMax_eq_nil rest hnone] at htl
      rcases List.mem_singleton.mp htl with rfl
      exact charsLt_irrefl _
    · rename_i m hm
      split at h
      · rename_i hlt
        cases h
        rcases List.mem_cons.mp htl with rfl | htr
        · exact charsLt_irrefl _
        · cases hat : lexLt a t with
          | false => rfl
          | true =>
            have htrans := charsLt_trans m.toList a.toList t.toList hlt hat
            have hub := ih m hm t htr
            simp only [lexLt] at hub
            rw [hub] at htrans
            exact Bool.noConfusion htrans
      · rename_i hlt
        cases h
        rcases List.mem_cons.mp htl with rfl | htr
        · exact eq_false_of_ne_true hlt
        · exact ih s hm t htr

end P2P

namespace P2P

/-- C4: the minted identifier is `PO-{YYYYMMDD}-{seq}` with seq 4-digit
zero-padded; seq is one more than the trailing integer of the
lexicographically greatest persisted identifier carrying today's date marker
(greatest = a member of the filtered set that no member exceeds), or 1 when
no such identifier exists; concretely, the first number on 2024-06-01 is
PO-20240601-0001 and, once persisted, the next is PO-20240601-0002. -/
theorem po_number_generation :
    (∀ existing date_str,
      (existing.filter fun s => strStartsWith s ("PO-" ++ date_str)) = [] →
      generate_po_number existing date_str =
        Except.ok ("PO-" ++ date_str ++ "-" ++ pad4 1)) ∧
    (∀ existing date_str last n,
      last ∈ (existing.filter fun s => strStartsWith s ("PO-" ++ date_str)) →
      (∀ t ∈ (existing.filter fun s => strStartsWith s ("PO-" ++ date_str)),
        lexLt last t = false) →
      parseNat? ((splitChar '-' last).getLastD "") = some n →
      generate_po_number existing date_str =
        Except.ok ("PO-" ++ date_str ++ "-" ++ pad4 (n + 1))) ∧
    generate_po_number [] "20240601" = Except.ok "PO-20240601-0001" ∧
    generate_po_number ["PO-20240601-0001"] "20240601" =
      Except.ok "PO-20240601-0002" := by
  refine ⟨?_, ?_, rfl, rfl⟩
  · intro existing date_str hfl
    simp only [generate_po_number, hfl, lexMax]
  · intro existing date_str last n hmem hub hparse
    rcases hm : lexMax (existing.filter fun s => strStartsWith s ("PO-" ++ date_str))
      with _ | m
    · rw [lexMax_eq_nil _ hm] at hmem
      exact absurd hmem (List.not_mem_nil _)
    · have hmm := lexMax_mem _ _ hm
      have hup := lexMax_ub _ _ hm
      have heq : m = last := by
        have h1 : lexLt last m = false := hub m hmm
        have h2 : lexLt m last = false := hup last hmem
        have hdata := charsLt_total_eq m.toList last.toList h2 h1
        exact String.ext hdata
      rw [heq] at hm
      simp only [generate_po_number, hm, hparse]

/-- Closed instance of C4: with PO-20240601-0001 persisted as the day's
greatest identifier, the next minted number is PO-20240601-0002. -/
theorem po_number_generation_witness :
    generate_po_number ["PO-20240601-0001"] "20240601" =
      Except.ok ("PO-" ++ "20240601" ++ "-" ++ pad4 (1 + 1)) :=
  po_number_generation.2.1 ["PO-20240601-0001"] "20240601" "PO-20240601-0001" 1
    (by decide) (by decide) rfl

end P2P
